import Mathlib

/-!
Shallow embedding of the lite-mutil-task-manager scheduler core
(`src/mutil_task/core/task.py`, `src/mutil_task/queue/task_queue.py`,
`src/mutil_task/utils/queue_position_service.py`,
`src/mutil_task/utils/event_bus.py`) together with theorems checking the
natural-language specification against it.

Modelling conventions:
* instants (`datetime.now(timezone.utc)`) are abstract clock readings of
  type `Nat`, passed explicitly as a `now` argument where the Python code
  reads the clock;
* the event bus is modelled by its publication log: `EventBus.publish`
  appends an `Event` record to a `List Event` carried in the state;
  the payload fields we model are the event type string, `old_status`,
  `new_status` and `timestamp` (the `task` reference and progress payload
  fields are not needed by any claim);
* Python exceptions are modelled by `Except String` results or by an
  `Option String` "uncaught exception" component, as noted per function;
* `progress` is an exact rational in [0,1], as the float arithmetic the
  claims touch (0.5 vs 50.0) is exact.
-/

namespace MutilTask

/-- TaskStatus enum from `task.py`: the six lifecycle states. -/
inductive TaskStatus where
  | PENDING
  | QUEUED
  | RUNNING
  | COMPLETED
  | FAILED
  | CANCELLED
deriving DecidableEq, Repr

/-- Python `TaskStatus.name` for each member. -/
def TaskStatus.pyName : TaskStatus → String
  | .PENDING => "PENDING"
  | .QUEUED => "QUEUED"
  | .RUNNING => "RUNNING"
  | .COMPLETED => "COMPLETED"
  | .FAILED => "FAILED"
  | .CANCELLED => "CANCELLED"

/-- TaskPriority enum from `task.py` (smaller value = higher priority). -/
inductive TaskPriority where
  | CRITICAL
  | HIGH
  | NORMAL
  | LOW
deriving DecidableEq, Repr

/-- Python `TaskPriority.value`. -/
def TaskPriority.value : TaskPriority → Nat
  | .CRITICAL => 0
  | .HIGH => 1
  | .NORMAL => 2
  | .LOW => 3

/-- Event type string constants from `event_bus.py` (class TaskEventType). -/
def TaskEventType.STATUS_CHANGED : String := "task_status_changed"

/-- Event type string constant `TaskEventType.CANCELLED`. -/
def TaskEventType.CANCELLED : String := "task_cancelled"

/-- One publication on the EventBus: the event type string plus the payload
fields relevant to the claims (`old_status`, `new_status`, `timestamp`).
A payload key that the Python dict does not carry is `none`. -/
structure Event where
  event_type : String
  old_status : Option TaskStatus := none
  new_status : Option TaskStatus := none
  timestamp : Nat
deriving DecidableEq, Repr

/-- The Task pydantic model from `task.py` (fields that participate in the
claims; `executor` is behaviour, not data, and is passed separately).
`retry_count` models the *dynamic* Python attribute that
`task_queue.py` tries to create with `task.retry_count = 0`: it is not a
declared pydantic field of Task, so `none` means
`hasattr(task, "retry_count")` is `False`. -/
structure Task where
  id : String
  title : String
  description : String := ""
  status : TaskStatus := .PENDING
  progress : ℚ := 0
  queue_position : Option Nat := none
  queue_total : Option Nat := none
  priority : TaskPriority := .NORMAL
  created_at : Nat
  updated_at : Nat
  queue_started_at : Option Nat := none
  queue_timeout : Option Nat := none
  execution_timeout : Option Nat := none
  timeout_reason : Option String := none
  retry_count : Option Nat := none
deriving DecidableEq, Repr

/-- TRANSITION_MATRIX from `Task._validate_transition`. -/
def TRANSITION_MATRIX : TaskStatus → List TaskStatus
  | .PENDING => [.QUEUED, .CANCELLED]
  | .QUEUED => [.RUNNING, .CANCELLED, .FAILED]
  | .RUNNING => [.COMPLETED, .FAILED, .CANCELLED]
  | .FAILED => [.QUEUED]
  | .COMPLETED => []
  | .CANCELLED => []

/-- Task._validate_transition: `true` means the transition is allowed,
`false` means the Python method raises ValueError. -/
def Task.validate_transition (current new : TaskStatus) : Bool :=
  (TRANSITION_MATRIX current).contains new

/-- Task._set_status: if the status actually changes, set it, refresh
`updated_at` (`_update_timestamp`) and publish one `task_status_changed`
event (`_publish_status_change`, whose timestamp payload reads
`self.updated_at` after the refresh). Returns the updated task and the
list of published events. -/
def Task.set_status (t : Task) (new_status : TaskStatus) (now : Nat) : Task × List Event :=
  let old_status := t.status
  if old_status ≠ new_status then
    let t1 := { t with status := new_status, updated_at := now }
    (t1, [{ event_type := TaskEventType.STATUS_CHANGED,
            old_status := some old_status,
            new_status := some new_status,
            timestamp := t1.updated_at }])
  else (t, [])

/-- Task.atomic_set_status: validate (when asked) then `_set_status`;
a ValueError from validation is caught and turned into `false`.
Returns (task after the call, returned bool, published events). -/
def Task.atomic_set_status (t : Task) (new_status : TaskStatus) (validate : Bool) (now : Nat) :
    Task × Bool × List Event :=
  if validate && !(Task.validate_transition t.status new_status) then
    (t, false, [])
  else
    let r := t.set_status new_status now
    (r.1, true, r.2)

/-- Task.cancel: refuse COMPLETED outright; otherwise validate the
transition to CANCELLED (a ValueError is caught and turned into `false`),
`_set_status(CANCELLED)`, then publish `task_cancelled` whose
`old_status` payload is read from `self.status` *after* the status was
already set, and whose timestamp reads `self.updated_at`. -/
def Task.cancel (t : Task) (now : Nat) : Task × Bool × List Event :=
  if t.status = TaskStatus.COMPLETED then
    (t, false, [])
  else if Task.validate_transition t.status TaskStatus.CANCELLED then
    let r := t.set_status TaskStatus.CANCELLED now
    let t1 := r.1
    (t1, true, r.2 ++ [{ event_type := TaskEventType.CANCELLED,
                         old_status := some t1.status,
                         new_status := none,
                         timestamp := t1.updated_at }])
  else (t, false, [])

/-- The record produced by `Task.model_dump`. Timestamps are carried
through as the underlying instants (the `isoformat` string rendering of a
datetime is not modelled; no claim depends on its characters). -/
structure TaskDump where
  id : String
  title : String
  description : String
  progress : ℚ
  queue_position : Option Nat
  queue_total : Option Nat
  status : String
  priority : Nat
  created_at : Nat
  updated_at : Nat
deriving DecidableEq, Repr

/-- Python `str.lower()` on an ASCII enum member name, character by
character. -/
def pyLower (s : String) : String := ⟨s.data.map Char.toLower⟩

/-- Task.model_dump: the base pydantic dump keeps every field value as is
(in particular `progress` stays the stored 0..1 fraction); the override
then replaces `status` by `self.status.name.lower()`, `priority` by
`self.priority.value` and renders the two timestamps. -/
def Task.model_dump (t : Task) : TaskDump :=
  { id := t.id
    title := t.title
    description := t.description
    progress := t.progress
    queue_position := t.queue_position
    queue_total := t.queue_total
    status := pyLower t.status.pyName
    priority := t.priority.value
    created_at := t.created_at
    updated_at := t.updated_at }

/-- A concrete PENDING task used by witnesses and counterexamples. -/
def sampleTask : Task :=
  { id := "task_a", title := "t", created_at := 0, updated_at := 0 }

/-- The sample task moved to COMPLETED. -/
def completedSampleTask : Task := { sampleTask with status := .COMPLETED }

/-- The sample task moved to FAILED. -/
def failedSampleTask : Task := { sampleTask with status := .FAILED }

/-- A task with internal progress 0.5, as in the repository-provided
serialization test (`tests/test_task_serialization_unittest.py`). -/
def progressHalfTask : Task :=
  { sampleTask with
    status := .QUEUED
    progress := (1 : ℚ)/2
    queue_position := some 1
    queue_total := some 3 }

/-- One heap entry `(task.priority.value, task.id, task)` pushed by
`task_queue.py`. The shared mutable Task object is kept in the
id-indexed store, so the entry carries the ordering key only. -/
structure HeapEntry where
  prio : Nat
  tid : String
deriving DecidableEq, Repr

/-- Python string comparison `a < b` (lexicographic by Unicode code
point), on the character lists of the two strings. -/
def pyCharListLt : List Char → List Char → Bool
  | [], [] => false
  | [], _ :: _ => true
  | _ :: _, [] => false
  | a :: as, b :: bs =>
    if a < b then true
    else if b < a then false
    else pyCharListLt as bs

/-- Python string comparison `a < b`. -/
def pyStrLt (a b : String) : Bool := pyCharListLt a.data b.data

/-- Python tuple comparison on heap entries `(priority.value, id, task)`:
lexicographic on the priority value, then the id string (`a ≤ b` is
`not (b < a)`; ids are unique, so the third component is never
compared). -/
def HeapEntry.le (a b : HeapEntry) : Bool :=
  if a.prio < b.prio then true
  else if b.prio < a.prio then false
  else !(pyStrLt b.tid a.tid)

/-- Model of `heapq.heappush`: the Python module maintains a binary
min-heap over the entry ordering; this embedding keeps the list sorted by
`HeapEntry.le`, so the list head is exactly the element `heapq.heappop`
extracts. Entry keys are distinct whenever task ids are, so the
extraction order of the two representations coincides. -/
def heappush (e : HeapEntry) : List HeapEntry → List HeapEntry
  | [] => [e]
  | x :: xs => if HeapEntry.le e x then e :: x :: xs else x :: heappush e xs

/-- The mutable state of a TaskQueue together with its environment: the
heap, the id-indexed store of the shared Task objects (Python object
identity: every holder of a reference sees the stored version), the
`_task_index` key set, `_active_tasks`, `_completed_tasks`, the EventBus
publication log, and the current clock reading. The position-service
cache is not modelled: every lookup is served by the recalculation path,
which returns the same value a cache hit would
(see `QueuePositionService.get_position`). -/
structure QueueState where
  heap : List HeapEntry
  tasks : String → Option Task
  task_index : List String
  active_tasks : List String
  completed_tasks : List String
  events : List Event
  now : Nat

/-- Read a task object from the store. -/
def QueueState.getTask (st : QueueState) (tid : String) : Option Task :=
  st.tasks tid

/-- Write back the (mutated) task object under its id. -/
def QueueState.storeTask (st : QueueState) (t : Task) : QueueState :=
  { st with tasks := fun x => if x = t.id then some t else st.tasks x }

/-- An initially empty queue (the state right after `TaskQueue.__init__`)
with the clock at 0. -/
def emptyQueueState : QueueState :=
  { heap := []
    tasks := fun _ => none
    task_index := []
    active_tasks := []
    completed_tasks := []
    events := []
    now := 0 }

/-- TaskQueue.enqueue: reject a non-PENDING task with ValueError;
otherwise update the task by DIRECT field assignment (plain
`task.status = TaskStatus.QUEUED`, not `atomic_set_status`, hence no
validation and no published event), stamp `updated_at` and
`queue_started_at`, push `(priority.value, id, task)` onto the heap,
record the entry in `_task_index`, and submit a run request to the pool
(the submission is scheduling; the caller models it by running
`run_task` later). -/
def TaskQueue.enqueue (st : QueueState) (t : Task) : Except String QueueState :=
  if t.status ≠ TaskStatus.PENDING then
    Except.error "只有PENDING状态的任务可以入队"
  else
    let t1 := { t with
      status := TaskStatus.QUEUED
      updated_at := st.now
      queue_started_at := some st.now }
    let st1 := st.storeTask t1
    Except.ok { st1 with
      heap := heappush { prio := t1.priority.value, tid := t1.id } st1.heap
      task_index := st1.task_index ++ [t1.id] }

/-- Convenience wrapper used by concrete scenarios: run `enqueue`, keeping
the prior state if it raised (all scenario uses are on PENDING tasks,
where it succeeds). -/
def TaskQueue.enqueueD (st : QueueState) (t : Task) : QueueState :=
  match TaskQueue.enqueue st t with
  | Except.ok st1 => st1
  | Except.error _ => st

/-- TaskQueue._dequeue_and_validate_task (under the lock): pop the heap
minimum, drop its id from `_task_index`; skip a cancelled task; if the
new heap head has strictly higher priority than the popped task, push the
popped entry back (preemption) and give up the slot; otherwise record the
task active and atomically set it RUNNING. Returns the state plus the
claimed (id, task), if any. The store lookup cannot miss for an entry
that was pushed by `enqueue`. -/
def TaskQueue.dequeue_and_validate_task (st : QueueState) :
    QueueState × Option (String × Task) :=
  match st.heap with
  | [] => (st, none)
  | e :: rest =>
    let st1 := { st with heap := rest, task_index := st.task_index.erase e.tid }
    match st1.getTask e.tid with
    | none => (st1, none)
    | some task =>
      if task.status = TaskStatus.CANCELLED then (st1, none)
      else if (match rest with
               | r :: _ => decide (r.prio < task.priority.value)
               | [] => false) then
        let e1 : HeapEntry := { prio := task.priority.value, tid := task.id }
        ({ st1 with
           heap := heappush e1 st1.heap
           task_index := st1.task_index ++ [task.id] }, none)
      else
        let st2 := { st1 with active_tasks := st1.active_tasks ++ [e.tid] }
        let r := task.atomic_set_status TaskStatus.RUNNING true st2.now
        let st3 := { st2.storeTask r.1 with events := st2.events ++ r.2.2 }
        (st3, some (e.tid, r.1))

/-- Message of the ValueError that pydantic v2 raises when assigning an
attribute a model does not declare. -/
def pydanticNoFieldMsg : String := "Task object has no field retry_count"

/-- Python statement `task.retry_count = v`. Task is a pydantic v2
BaseModel that declares no `retry_count` field, and its `model_config`
does not set `extra = allow`, so `BaseModel.__setattr__` raises
ValueError instead of creating the attribute; the attribute can therefore
never come into existence. -/
def Task.setattr_retry_count (t : Task) (v : Nat) : Except String Task :=
  Except.error pydanticNoFieldMsg

/-- TaskQueue._handle_successful_execution: unless the task has become
CANCELLED during execution, atomically set COMPLETED, then set progress
to 1.0 and record the task completed; for a cancelled task the outcome is
dropped and the state is untouched. -/
def TaskQueue.handle_successful_execution (st : QueueState) (tid : String) (task : Task) :
    QueueState :=
  if task.status ≠ TaskStatus.CANCELLED then
    let r := task.atomic_set_status TaskStatus.COMPLETED true st.now
    let t1 := { r.1 with progress := 1 }
    let st1 := { st.storeTask t1 with events := st.events ++ r.2.2 }
    { st1 with completed_tasks := st1.completed_tasks ++ [tid] }
  else st

/-- TaskQueue._handle_failed_execution: unless the task has become
CANCELLED during execution, atomically set FAILED; then
`if not hasattr(task, "retry_count"): task.retry_count = 0`, and when the
counter is below 3, increment it, set QUEUED again and push the entry
back. Both attribute assignments go through `Task.setattr_retry_count`
and raise; the method catches nothing, so the exception escapes (the
second component; mutations made before the raise persist on the shared
objects, as in Python). -/
def TaskQueue.handle_failed_execution (st : QueueState) (tid : String) (task : Task) :
    QueueState × Option String :=
  if task.status ≠ TaskStatus.CANCELLED then
    let r := task.atomic_set_status TaskStatus.FAILED true st.now
    let st1 := { st.storeTask r.1 with events := st.events ++ r.2.2 }
    let withAttr : Except String Task :=
      if r.1.retry_count.isNone then r.1.setattr_retry_count 0 else Except.ok r.1
    match withAttr with
    | Except.error msg => (st1, some msg)
    | Except.ok t1 =>
      match t1.retry_count with
      | some n =>
        if n < 3 then
          match t1.setattr_retry_count (n + 1) with
          | Except.error msg => (st1, some msg)
          | Except.ok t2 =>
            let r2 := t2.atomic_set_status TaskStatus.QUEUED true st1.now
            let st2 := { st1.storeTask r2.1 with events := st1.events ++ r2.2.2 }
            ({ st2 with
               heap := heappush { prio := r2.1.priority.value, tid := r2.1.id } st2.heap
               task_index := st2.task_index ++ [r2.1.id] }, none)
        else (st1, none)
      | none => (st1, none)
  else (st, none)

/-- TaskQueue._cleanup_execution_resources: invalidate the position cache
(not modelled) and drop the id from `_active_tasks`. -/
def TaskQueue.cleanup_execution_resources (st : QueueState) (tid : String) : QueueState :=
  { st with active_tasks := st.active_tasks.erase tid }

/-- TaskQueue._run_task for one worker slot: acquire a task, execute it
(`succeeds` abstracts whether `task.execute()` returned or raised — the
consistently failing executor of the claims passes `false`), process the
result, clean up. An exception escaping result processing skips the
cleanup step and is swallowed by the thread pool; it is reported in the
second component. -/
def TaskQueue.run_task (st : QueueState) (succeeds : Bool) : QueueState × Option String :=
  match TaskQueue.dequeue_and_validate_task st with
  | (st1, none) => (st1, none)
  | (st1, some (tid, task)) =>
    if succeeds then
      let st2 := TaskQueue.handle_successful_execution st1 tid task
      (TaskQueue.cleanup_execution_resources st2 tid, none)
    else
      match TaskQueue.handle_failed_execution st1 tid task with
      | (st2, some msg) => (st2, some msg)
      | (st2, none) => (TaskQueue.cleanup_execution_resources st2 tid, none)

/-- TaskQueue._remove_from_heap: nothing to do when the id is not in
`_task_index`; otherwise fetch the task object of the indexed entry, call
`task.cancel()` on it (a FAILED task rejects this as a non-throwing
no-op), delete the index entry, and rebuild the heap without the id. In
every reachable state an indexed id is present in the store. -/
def TaskQueue.remove_from_heap (st : QueueState) (tid : String) : QueueState × Bool :=
  if tid ∈ st.task_index then
    let st1 :=
      match st.getTask tid with
      | some task =>
        let r := task.cancel st.now
        { st.storeTask r.1 with events := st.events ++ r.2.2 }
      | none => st
    ({ st1 with
       task_index := st1.task_index.erase tid
       heap := st1.heap.filter (fun e => e.tid != tid) }, true)
  else (st, false)

/-- The reason string `"队列等待超时: {task.queue_timeout}秒"` written by
`_handle_queue_timeout` (note: not the English "queue-wait timeout: Ns"
wording of the spec). -/
def queueTimeoutReason (n : Nat) : String :=
  "队列等待超时: " ++ toString n ++ "秒"

/-- TaskQueue._handle_queue_timeout: atomically transition the task to
FAILED (validated; succeeds from QUEUED) and, only if that returned true,
set `timeout_reason` and remove the entry from the heap. -/
def TaskQueue.handle_queue_timeout (st : QueueState) (tid : String) (task : Task) :
    QueueState :=
  let r := task.atomic_set_status TaskStatus.FAILED true st.now
  if r.2.1 then
    let reason :=
      match r.1.queue_timeout with
      | some n => queueTimeoutReason n
      | none => "队列等待超时: None秒"
    let t1 := { r.1 with timeout_reason := some reason }
    let st1 := { st.storeTask t1 with events := st.events ++ r.2.2 }
    (TaskQueue.remove_from_heap st1 tid).1
  else st

/-- TaskQueue._scan_queue_timeouts: read the clock once, then walk the
heap entries as they were at the start of the scan (the Python for-loop
iterates the list object captured before any removal rebinds
`self._heap`); for every entry whose task has `queue_timeout` set (the
field is validated ≥ 1, so truthiness equals presence) and whose queue
wait exceeds it, run `_handle_queue_timeout`. The shared task object of
each entry is read in its current state. -/
def TaskQueue.scan_queue_timeouts (st : QueueState) : QueueState :=
  st.heap.foldl
    (fun acc e =>
      match acc.getTask e.tid with
      | none => acc
      | some task =>
        match task.queue_timeout, task.queue_started_at with
        | some qt, some qs =>
          if (st.now : Int) - qs > qt then TaskQueue.handle_queue_timeout acc e.tid task
          else acc
        | _, _ => acc)
    st

/-- QueuePositionService._recalculate_positions: snapshot the heap under
the queue lock, assign 1-based positions in heap enumeration order paired
with the total, cache the whole map, and serve the request with
`positions.get(task_id, (None, 0))` — the default pairs None with 0, not
with the computed total. -/
def QueuePositionService.recalculate_positions (heap : List HeapEntry) (task_id : String) :
    Option Nat × Nat :=
  let total := heap.length
  let positions := heap.enum.map (fun p => (p.2.tid, (p.1 + 1, total)))
  match positions.find? (fun q => q.1 == task_id) with
  | some q => (some q.2.1, q.2.2)
  | none => (none, 0)

/-- QueuePositionService.get_position: a cache younger than the TTL is
served with `cache.get(task_id, (None, 0))`, otherwise the positions are
recalculated. Both paths apply the same `(None, 0)` default for an absent
id and the cache holds exactly the recalculated map, so the lookup is
modelled by the recalculation path. -/
def QueuePositionService.get_position (heap : List HeapEntry) (task_id : String) :
    Option Nat × Nat :=
  QueuePositionService.recalculate_positions heap task_id


/-- The sample task moved to CANCELLED. -/
def cancelledSampleTask : Task := { sampleTask with status := .CANCELLED }

/-- NORMAL-priority PENDING task that scenario runs enqueue FIRST; its id
sorts lexicographically AFTER the id of the other task. -/
def taskEnqueuedFirst : Task := { sampleTask with id := "task_b" }

/-- NORMAL-priority PENDING task that scenario runs enqueue SECOND; its id
sorts lexicographically BEFORE the id of the other task. -/
def taskEnqueuedSecond : Task := { sampleTask with id := "task_a" }

/-- A QUEUED task that has been waiting since instant 0 with a 5-second
queue timeout. -/
def queuedTimeoutTask : Task :=
  { sampleTask with
    status := .QUEUED
    queue_started_at := some 0
    queue_timeout := some 5 }

/-- A queue state holding only `queuedTimeoutTask`, observed at instant
10 — well past the 5-second queue-wait deadline. -/
def timeoutScenarioState : QueueState :=
  { heap := [{ prio := 2, tid := "task_a" }]
    tasks := fun x => if x = "task_a" then some queuedTimeoutTask else none
    task_index := ["task_a"]
    active_tasks := []
    completed_tasks := []
    events := []
    now := 10 }

/-- Helper: a transition allowed by the matrix is never a self-loop. -/
theorem validate_transition_ne {s n : TaskStatus}
    (h : Task.validate_transition s n = true) : s ≠ n := by
  cases s <;> cases n <;> revert h <;> decide

/-- C1: with validation on, `atomic_set_status` returns false and leaves the
task (status, `updated_at`) and the event log untouched whenever the
requested transition is outside the TRANSITION_MATRIX, and for every
transition inside the matrix it succeeds, returning true with the status
set and `updated_at` refreshed. -/
theorem atomic_set_status_matrix_spec (t : Task) (new_status : TaskStatus) (now : Nat) :
    (Task.validate_transition t.status new_status = false →
      t.atomic_set_status new_status true now = (t, false, [])) ∧
    (Task.validate_transition t.status new_status = true →
      (t.atomic_set_status new_status true now).2.1 = true ∧
      (t.atomic_set_status new_status true now).1.status = new_status ∧
      (t.atomic_set_status new_status true now).1.updated_at = now) := by
  constructor
  · intro h
    simp [Task.atomic_set_status, h]
  · intro h
    have hne : t.status ≠ new_status := validate_transition_ne h
    simp [Task.atomic_set_status, h, Task.set_status, hne]

/-- Witness for C1: from PENDING, the transition to RUNNING is rejected with
the task unchanged, while the transition to QUEUED succeeds. -/
theorem atomic_set_status_matrix_spec_witness :
    sampleTask.atomic_set_status TaskStatus.RUNNING true 5 = (sampleTask, false, []) ∧
    (sampleTask.atomic_set_status TaskStatus.QUEUED true 5).2.1 = true :=
  ⟨(atomic_set_status_matrix_spec sampleTask TaskStatus.RUNNING 5).1 (by decide),
   ((atomic_set_status_matrix_spec sampleTask TaskStatus.QUEUED 5).2 (by decide)).1⟩

/-- C8: `cancel()` on a COMPLETED task, or from any state whose matrix row
does not contain CANCELLED (FAILED, CANCELLED), returns false without
raising, leaves the task entirely unchanged and publishes no event. -/
theorem cancel_rejected_is_noop (t : Task) (now : Nat)
    (h : t.status = TaskStatus.COMPLETED ∨ t.status = TaskStatus.FAILED ∨
         t.status = TaskStatus.CANCELLED) :
    t.cancel now = (t, false, []) := by
  rcases h with h | h | h <;>
    simp [Task.cancel, h, Task.validate_transition, TRANSITION_MATRIX]

/-- Witness for C8: cancelling a COMPLETED task and a FAILED task are both
non-throwing no-ops returning false. -/
theorem cancel_rejected_is_noop_witness :
    completedSampleTask.cancel 7 = (completedSampleTask, false, []) ∧
    failedSampleTask.cancel 7 = (failedSampleTask, false, []) :=
  ⟨cancel_rejected_is_noop completedSampleTask 7 (Or.inl rfl),
   cancel_rejected_is_noop failedSampleTask 7 (Or.inr (Or.inl rfl))⟩

/-- C10: whenever `cancel()` succeeds, the events published are the
status-change event (recording the true old status) followed by the
`task_cancelled` event, and because the `old_status` payload of the latter is
read from `self.status` after `_set_status` has already run, that payload
is always CANCELLED, never the pre-cancellation state. -/
theorem cancel_event_old_status_is_cancelled (t : Task) (now : Nat)
    (h : (t.cancel now).2.1 = true) :
    (t.cancel now).2.2 =
      [{ event_type := TaskEventType.STATUS_CHANGED,
         old_status := some t.status,
         new_status := some TaskStatus.CANCELLED,
         timestamp := now },
       { event_type := TaskEventType.CANCELLED,
         old_status := some TaskStatus.CANCELLED,
         new_status := none,
         timestamp := now }] := by
  cases ht : t.status <;>
    simp_all [Task.cancel, ht, Task.validate_transition, TRANSITION_MATRIX,
      Task.set_status]

/-- Witness for C10: cancelling the PENDING sample task publishes the
status-change event followed by a `task_cancelled` event whose
`old_status` payload is CANCELLED (not PENDING). -/
theorem cancel_event_old_status_is_cancelled_witness :
    (sampleTask.cancel 9).2.2 =
      [{ event_type := TaskEventType.STATUS_CHANGED,
         old_status := some sampleTask.status,
         new_status := some TaskStatus.CANCELLED,
         timestamp := 9 },
       { event_type := TaskEventType.CANCELLED,
         old_status := some TaskStatus.CANCELLED,
         new_status := none,
         timestamp := 9 }] :=
  cancel_event_old_status_is_cancelled sampleTask 9 (by decide)

/-- C9 (code bug): at the failing input, `model_dump` emits `progress` as
the stored fraction 0.5 — not the 0–100 percent form (50.00) that the
spec states and that the serialization test in the repository asserts —
while `status` and `priority` are serialized as claimed. -/
theorem model_dump_progress_fraction_bug :
    (progressHalfTask.model_dump).progress = 1/2 ∧
    (progressHalfTask.model_dump).progress ≠ 50 ∧
    (progressHalfTask.model_dump).status = "queued" ∧
    (progressHalfTask.model_dump).priority = 2 := by
  refine ⟨rfl, ?_, by decide, by decide⟩
  show (1 : ℚ)/2 ≠ 50
  norm_num

/-- Helper: the Python string order is irreflexive. -/
theorem pyCharListLt_irrefl (l : List Char) : pyCharListLt l l = false := by
  induction l with
  | nil => rfl
  | cons a as ih => simp [pyCharListLt, ih]

/-- Helper: strictly ordered strings are distinct. -/
theorem pyStrLt_ne {a b : String} (h : pyStrLt a b = true) : a ≠ b := by
  intro hab
  subst hab
  rw [pyStrLt, pyCharListLt_irrefl] at h
  exact Bool.false_ne_true h

/-- C2 counterexample: enqueueing the PENDING sample task into the empty
queue publishes no event whatsoever — in particular no
`task_status_changed` PENDING→QUEUED event — even though the
status does change to QUEUED during the call. -/
theorem enqueue_emits_no_pending_queued_event :
    (TaskQueue.enqueueD emptyQueueState sampleTask).events = [] ∧
    ((TaskQueue.enqueueD emptyQueueState sampleTask).getTask "task_a").map Task.status
      = some TaskStatus.QUEUED := by
  exact ⟨rfl, rfl⟩

/-- C2 (amended): status changes made through the atomic state operation
do publish `task_status_changed` carrying the true old and new status,
but the PENDING→QUEUED change in enqueue bypasses it: enqueue succeeds on a
PENDING task by direct field assignment, moving it to QUEUED while
publishing nothing, so an observer of a happy-path run first sees
`status_changed(QUEUED→RUNNING)`. -/
theorem enqueue_bypasses_atomic_status_events (st : QueueState) (t : Task)
    (h : t.status = TaskStatus.PENDING) :
    TaskQueue.enqueue st t = Except.ok (TaskQueue.enqueueD st t) ∧
    (TaskQueue.enqueueD st t).events = st.events ∧
    (TaskQueue.enqueueD st t).getTask t.id =
      some { t with
             status := TaskStatus.QUEUED
             updated_at := st.now
             queue_started_at := some st.now } ∧
    (∀ (u : Task) (new_status : TaskStatus) (now : Nat), u.status ≠ new_status →
      (u.set_status new_status now).2 =
        [{ event_type := TaskEventType.STATUS_CHANGED
           old_status := some u.status
           new_status := some new_status
           timestamp := now }]) := by
  refine ⟨?_, ?_, ?_, ?_⟩
  · simp [TaskQueue.enqueue, TaskQueue.enqueueD, h]
  · simp [TaskQueue.enqueue, TaskQueue.enqueueD, h, QueueState.storeTask]
  · simp [TaskQueue.enqueue, TaskQueue.enqueueD, h, QueueState.storeTask,
      QueueState.getTask]
  · intro u new_status now hne
    simp [Task.set_status, hne]

/-- Witness for the amended C2 theorem at the sample task: the enqueue call
leaves the event log of the empty queue untouched. -/
theorem enqueue_bypasses_atomic_status_events_witness :
    (TaskQueue.enqueueD emptyQueueState sampleTask).events = emptyQueueState.events :=
  (enqueue_bypasses_atomic_status_events emptyQueueState sampleTask rfl).2.1

/-- C3 counterexample: two NORMAL-priority tasks; the task enqueued first
has id "task_b" and the task enqueued second has id "task_a"; the first
dispatch claims the SECOND-enqueued task, because equal-priority ties are
broken by the id string of the heap tuple, not by insertion order. -/
theorem equal_priority_fifo_counterexample :
    ((TaskQueue.dequeue_and_validate_task
        (TaskQueue.enqueueD (TaskQueue.enqueueD emptyQueueState taskEnqueuedFirst)
          taskEnqueuedSecond)).2.map Prod.fst = some taskEnqueuedSecond.id) ∧
    taskEnqueuedFirst.priority = taskEnqueuedSecond.priority ∧
    taskEnqueuedFirst.id ≠ taskEnqueuedSecond.id := by
  refine ⟨rfl, rfl, by decide⟩

/-- C3 (amended): among equal-priority tasks the dispatch order follows
the id string of the heap tuple `(priority.value, id, task)`, not the
insertion order: enqueueing PENDING tasks A then B of equal priority into
the empty queue dispatches A first exactly in the case that the id of A sorts
below the id of B in the Python string order. -/
theorem equal_priority_dequeue_by_id (A B : Task)
    (hA : A.status = TaskStatus.PENDING) (hB : B.status = TaskStatus.PENDING)
    (hp : A.priority = B.priority) (hid : pyStrLt A.id B.id = true) :
    (TaskQueue.dequeue_and_validate_task
        (TaskQueue.enqueueD (TaskQueue.enqueueD emptyQueueState A) B)).2.map Prod.fst
      = some A.id := by
  have hne : A.id ≠ B.id := pyStrLt_ne hid
  simp [TaskQueue.enqueueD, TaskQueue.enqueue, emptyQueueState, hA, hB,
    QueueState.storeTask, QueueState.getTask, heappush, HeapEntry.le, hp,
    lt_irrefl, hid, hne, TaskQueue.dequeue_and_validate_task,
    Ne.symm hne, Task.atomic_set_status, Task.validate_transition,
    TRANSITION_MATRIX, Task.set_status]

/-- Witness for the amended C3 theorem: with ids in ascending order the
insertion order is preserved, so the first-enqueued "task_a" dispatches
first. -/
theorem equal_priority_dequeue_by_id_witness :
    (TaskQueue.dequeue_and_validate_task
        (TaskQueue.enqueueD (TaskQueue.enqueueD emptyQueueState taskEnqueuedSecond)
          taskEnqueuedFirst)).2.map Prod.fst = some taskEnqueuedSecond.id :=
  equal_priority_dequeue_by_id taskEnqueuedSecond taskEnqueuedFirst rfl rfl rfl (by decide)

/-- C4 (code bug, evaluated at the failing input): enqueue the fresh
sample task, then run one worker slot whose execution fails. Dispatch
emits QUEUED→RUNNING and failure handling emits RUNNING→FAILED, but then
`task.retry_count = 0` raises the pydantic ValueError: the run ends with
that uncaught exception, the task is left FAILED with no retry_count
attribute, and the heap is empty — the task is never re-enqueued, so no
second attempt (let alone the claimed 3 retries and 4 failure
transitions) ever happens. -/
theorem failing_task_never_retried :
    (TaskQueue.run_task (TaskQueue.enqueueD emptyQueueState sampleTask) false).2
      = some pydanticNoFieldMsg ∧
    (TaskQueue.run_task (TaskQueue.enqueueD emptyQueueState sampleTask) false).1.heap
      = [] ∧
    ((TaskQueue.run_task (TaskQueue.enqueueD emptyQueueState sampleTask) false).1.getTask
        "task_a").map Task.status = some TaskStatus.FAILED ∧
    ((TaskQueue.run_task (TaskQueue.enqueueD emptyQueueState sampleTask) false).1.getTask
        "task_a").map Task.retry_count = some none ∧
    (TaskQueue.run_task (TaskQueue.enqueueD emptyQueueState sampleTask) false).1.events =
      [{ event_type := TaskEventType.STATUS_CHANGED
         old_status := some TaskStatus.QUEUED
         new_status := some TaskStatus.RUNNING
         timestamp := 0 },
       { event_type := TaskEventType.STATUS_CHANGED
         old_status := some TaskStatus.RUNNING
         new_status := some TaskStatus.FAILED
         timestamp := 0 }] := by
  refine ⟨rfl, rfl, rfl, rfl, rfl⟩

/-- C5: if the state of the task is CANCELLED at the moment the worker
processes the execution outcome, both outcome handlers drop the outcome
silently: the queue state — task store, completed map, heap and event
log — is left exactly as it was, so no COMPLETED or FAILED transition or
event can ever follow for that attempt. -/
theorem cancelled_outcome_dropped (st : QueueState) (tid : String) (task : Task)
    (h : task.status = TaskStatus.CANCELLED) :
    TaskQueue.handle_successful_execution st tid task = st ∧
    TaskQueue.handle_failed_execution st tid task = (st, none) := by
  constructor <;>
    simp [TaskQueue.handle_successful_execution, TaskQueue.handle_failed_execution, h]

/-- Witness for C5: both handlers leave the empty queue state untouched
for the cancelled sample task. -/
theorem cancelled_outcome_dropped_witness :
    TaskQueue.handle_successful_execution emptyQueueState "task_a" cancelledSampleTask
      = emptyQueueState ∧
    TaskQueue.handle_failed_execution emptyQueueState "task_a" cancelledSampleTask
      = (emptyQueueState, none) :=
  cancelled_outcome_dropped emptyQueueState "task_a" cancelledSampleTask rfl

/-- C6 counterexample: when the scan fires for the queued task with
queue_timeout = 5 seconds, the recorded reason is the Chinese-format
string "队列等待超时: 5秒" — not the string "queue-wait timeout: 5s"
stated by the claim. -/
theorem queue_timeout_reason_string_counterexample :
    ((TaskQueue.scan_queue_timeouts timeoutScenarioState).getTask "task_a").map
        Task.timeout_reason = some (some "队列等待超时: 5秒") ∧
    (some (some "队列等待超时: 5秒") : Option (Option String)) ≠
      some (some "queue-wait timeout: 5s") := by
  exact ⟨rfl, by decide⟩

/-- C6 (amended): for a heap entry whose QUEUED, indexed task has
`queue_timeout` set, when the scanner hands it to `_handle_queue_timeout`
the task is atomically transitioned QUEUED→FAILED, `timeout_reason` is
set to "队列等待超时: Ns" (N the timeout in seconds), and the entry is
removed from the heap, so the task can never be dispatched. -/
theorem queue_timeout_marks_failed_and_removes (st : QueueState) (tid : String)
    (task : Task) (n : Nat)
    (hid : task.id = tid)
    (hst : task.status = TaskStatus.QUEUED) (hto : task.queue_timeout = some n)
    (hidx : tid ∈ st.task_index) :
    ((TaskQueue.handle_queue_timeout st tid task).getTask tid).map Task.status
      = some TaskStatus.FAILED ∧
    ((TaskQueue.handle_queue_timeout st tid task).getTask tid).map Task.timeout_reason
      = some (some (queueTimeoutReason n)) ∧
    ∀ e ∈ (TaskQueue.handle_queue_timeout st tid task).heap, e.tid ≠ tid := by
  refine ⟨?_, ?_, ?_⟩ <;>
    simp [TaskQueue.handle_queue_timeout, Task.atomic_set_status,
      Task.validate_transition, TRANSITION_MATRIX, hst, Task.set_status,
      hto, hid, hidx, TaskQueue.remove_from_heap, Task.cancel,
      QueueState.storeTask, QueueState.getTask, List.mem_filter]

/-- Witness for the amended C6 theorem at the timeout scenario: the task is
FAILED with the Chinese-format reason recorded. -/
theorem queue_timeout_marks_failed_and_removes_witness :
    ((TaskQueue.handle_queue_timeout timeoutScenarioState "task_a"
        queuedTimeoutTask).getTask "task_a").map Task.timeout_reason
      = some (some (queueTimeoutReason 5)) :=
  (queue_timeout_marks_failed_and_removes timeoutScenarioState "task_a"
    queuedTimeoutTask 5 rfl rfl rfl (by decide)).2.1

/-- C7 (code bug, evaluated at the failing input): with exactly one entry
in the heap (total 1), `get_position` for an id present in the heap
returns its 1-based position with the true total, but for an absent id it
returns (none, 0) — the absent-id default pairs None with 0 rather than
with the current total. -/
theorem get_position_missing_id_returns_zero_total :
    QueuePositionService.get_position [{ prio := 2, tid := "task_a" }] "task_x"
      = (none, 0) ∧
    QueuePositionService.get_position [{ prio := 2, tid := "task_a" }] "task_a"
      = (some 1, 1) := by
  exact ⟨rfl, rfl⟩

end MutilTask
